import Mathlib

set_option maxRecDepth 20000

/-!
Verification of the YoMama-as-a-Service joke generator and its secrets
resolution helper, shallowly embedded from the Python sources
(yo_mama/yo_mama_generator.py and yo_mama/secrets.py).

Remote calls and randomness are modelled as explicit oracle parameters:
the outcome of the single text-generation call is an
Except String String value (error description or response text), and
each random draw is an explicit index that selects from the relevant
list modulo its length. Python string methods used by the code
(lower, upper, capitalize, strip) are embedded as executable functions
over the character list of a string. Python dictionary subscripting,
which raises KeyError on a missing key, is embedded as an
Option-returning lookup, and a function that can propagate an exception
returns Option (none = exception escapes to the caller).
-/

/-- Model of Python str.lower (ASCII, as used by the code). -/
def pyLower (s : String) : String := String.mk (s.data.map Char.toLower)

/-- Model of Python str.upper (ASCII, as used by the code). -/
def pyUpper (s : String) : String := String.mk (s.data.map Char.toUpper)

/-- Model of Python str.capitalize: first character uppercased, the rest lowercased. -/
def pyCapitalize (s : String) : String :=
  match s.data with
  | [] => ""
  | c :: cs => String.mk (c.toUpper :: cs.map Char.toLower)

/-- Model of Python str.strip: whitespace removed from both ends. -/
def pyStrip (s : String) : String :=
  String.mk (((s.data.dropWhile Char.isWhitespace).reverse.dropWhile Char.isWhitespace).reverse)

/-- Boolean test that pat is a leading segment of l. -/
def isPreL : List Char → List Char → Bool
  | [], _ => true
  | _ :: _, [] => false
  | p :: ps, c :: cs => p == c && isPreL ps cs

/-- Boolean test that pat occurs contiguously inside l. -/
def containsL (pat : List Char) : List Char → Bool
  | [] => pat.isEmpty
  | c :: cs => isPreL pat (c :: cs) || containsL pat cs

/-- Model of the Python substring test, as in: pat in s. -/
def containsSub (s pat : String) : Bool := containsL pat.data s.data

/-- Association-list lookup, modelling Python dict lookup used with string keys. -/
def lookupPairs : List (String × String) → String → Option String
  | [], _ => none
  | (k, v) :: rest, key => if key = k then some v else lookupPairs rest key

/-- YoMamaGenerator.FLAVORS from yo_mama_generator.py. -/
def FLAVORS : List String :=
  ["classic", "cybersecurity", "tech", "linux", "general", "gaming",
   "programming", "networking", "cloud", "devops", "database", "radio", "thegame"]

/-- YoMamaGenerator.list_flavors, which returns a copy of FLAVORS. -/
def list_flavors : List String := FLAVORS

/-- Flavor validation and normalization at the top of generate_joke:
a truthy flavor whose lowercasing is not in FLAVORS is discarded and a
random flavor is chosen; a None flavor is replaced by a random flavor;
otherwise the lowercased flavor is used. The random draw is modelled by
an index reduced modulo the list length. -/
def resolveFlavor (flavor : Option String) (flavorIdx : Nat) : String :=
  match flavor with
  | none => FLAVORS.getD (flavorIdx % FLAVORS.length) ""
  | some f =>
    if f ≠ "" ∧ pyLower f ∉ FLAVORS then FLAVORS.getD (flavorIdx % FLAVORS.length) ""
    else pyLower f

/-- The clamping max(1, min(10, x)) applied to meanness and nerdiness. -/
def clampLevel (x : Int) : Int := max 1 (min 10 x)

/-- The flavor_contexts dictionary of _build_prompt. -/
def flavor_contexts : List (String × String) :=
  [("classic", "CLASSIC traditional Yo Mama jokes - use timeless formats like \"so fat\", \"so ugly\", \"so old\", \"so stupid\", \"so poor\", \"so hairy\", \"so short\", \"so tall\". Examples: \"Yo mama so fat when she sits around the house, she sits AROUND the house\", \"Yo mama so fat when she got on the scale it said \x27I need your weight not your phone number\x27\", \"Yo mama so fat I took a picture of her last Christmas and it\x27s still printing\", \"Yo mama like a race car she burns 4 rubbers a day\". Keep it traditional, punchy, and non-technical."),
   ("cybersecurity", "cybersecurity, hacking, vulnerabilities, security tools like CrowdStrike, Shodan, Suricata, Wazuh, firewalls, encryption, CVEs"),
   ("tech", "technology, computers, software, hardware, operating systems, IT support, tech companies"),
   ("linux", "Linux, Unix, open source, command line, distros, kernel, bash, system administration, package managers"),
   ("general", "everyday technology, smartphones, social media, internet, basic computing"),
   ("gaming", "video games, gaming hardware, esports, game development, streaming, lag, FPS"),
   ("programming", "coding, programming languages, APIs, debugging, git, IDEs, software development"),
   ("networking", "networks, routers, switches, protocols, TCP/IP, DNS, load balancing, bandwidth"),
   ("cloud", "cloud computing, AWS, Azure, GCP, containers, Kubernetes, serverless, microservices"),
   ("devops", "DevOps, CI/CD, Docker, Jenkins, automation, infrastructure as code, monitoring"),
   ("database", "databases, SQL, NoSQL, queries, indexes, normalization, database administrators"),
   ("radio", "amateur radio, ham radio, frequencies, bands (HF/VHF/UHF), antennas, SWR, propagation, callsigns, morse code, repeaters, QSO, QSL cards, ARRL, FCC licenses (Technician/General/Extra), rigs, transceivers, DX, contestin"),
   ("thegame", "The Game - a mind game where thinking about The Game means you lose. Create creative, funny ways to tell them they just lost The Game. Be clever and unexpected. Reference memes, internet culture, or tech concepts if appropriate.")]

/-- The meanness_guide dictionary of _build_prompt; subscripting a key
outside 1..10 raises KeyError in Python, modelled by none. -/
def meanness_guide (m : Int) : Option String :=
  if m = 1 then some "extremely gentle and wholesome, just playful teasing"
  else if m = 2 then some "mild and friendly, very light roasting"
  else if m = 3 then some "gentle but with a slight edge"
  else if m = 4 then some "moderately playful with some bite"
  else if m = 5 then some "balanced roasting, noticeable but not harsh"
  else if m = 6 then some "firm roasting with clear jabs"
  else if m = 7 then some "harsh and pointed, definitely stinging"
  else if m = 8 then some "brutal and savage, no holding back"
  else if m = 9 then some "devastatingly mean, almost cruel"
  else if m = 10 then some "absolutely merciless and nuclear-level savage"
  else none

/-- The nerdiness_guide dictionary of _build_prompt. -/
def nerdiness_guide (n : Int) : Option String :=
  if n = 1 then some "use only basic everyday terms anyone would understand"
  else if n = 2 then some "use simple tech terms most people know"
  else if n = 3 then some "use common tech concepts"
  else if n = 4 then some "use moderately technical terms"
  else if n = 5 then some "use technical jargon that tech-savvy people know"
  else if n = 6 then some "use specialized technical terms"
  else if n = 7 then some "use insider technical references and acronyms"
  else if n = 8 then some "use advanced technical concepts and tools"
  else if n = 9 then some "use highly specialized technical knowledge"
  else if n = 10 then some "use extremely obscure technical references only experts would get"
  else none

/-- YoMamaGenerator._build_prompt. Returns none when a guide subscript
raises KeyError; otherwise the exact composed prompt text. -/
def build_prompt (flavor : String) (meanness nerdiness : Int) (target_name : Option String) :
    Option String :=
  let flavor_context := (lookupPairs flavor_contexts flavor).getD "general technology"
  match meanness_guide meanness, nerdiness_guide nerdiness with
  | some mg, some ng =>
    let target := match target_name with
      | some t => if t ≠ "" then t else "yo mama"
      | none => "yo mama"
    some ("Generate a single \"Yo Mama\" style joke with these specifications:\n\nTHEME/FLAVOR: "
      ++ flavor ++ " - Focus on " ++ flavor_context
      ++ "\n\nMEANNESS LEVEL: " ++ toString meanness ++ "/10 - " ++ mg
      ++ "\n\nNERDINESS LEVEL: " ++ toString nerdiness ++ "/10 - " ++ ng
      ++ "\n\nTARGET: Use \"" ++ target
      ++ "\" instead of \"yo mama\"\n\nREQUIREMENTS:\n- Start with \""
      ++ pyCapitalize target
      ++ " so [adjective]...\"\n- The joke must be related to "
      ++ flavor
      ++ "\n- Match the specified meanness and nerdiness levels precisely\n- Be creative and clever\n- Keep it concise (1-2 sentences max)\n- Make it funny and original\n\nEXAMPLES for reference (adjust based on parameters):\n\n"
      ++ flavor
      ++ " examples:\n- Yo mama so insecure, even CrowdStrike put her in Reduced Functionality Mode.\n- Yo mama so exposed, Shodan sends her vulnerability reports.\n- Yo mama so slow, when she tried to catch up on her emails, Outlook timed her out.\n\nGenerate ONE joke now, matching all specifications:")
  | _, _ => none

/-- The spec operation compose: flavor resolution, clamping, then prompt
construction, exactly the pipeline of generate_joke before the remote call. -/
def compose (flavor : Option String) (meanness nerdiness : Int) (target_name : Option String)
    (flavorIdx : Nat) : Option String :=
  build_prompt (resolveFlavor flavor flavorIdx) (clampLevel meanness) (clampLevel nerdiness)
    target_name

/-- The rate_limit_jokes list of generate_joke. -/
def rate_limit_jokes : List String :=
  ["Yo mama hitting this API so hard, even Google told her to slow down! 🚦 (Rate limit exceeded, try again in a minute)",
   "Yo mama\x27s requests so thicc, the API said \x27I need a break!\x27 💤 (Quota exceeded, please try again later)",
   "Yo mama making so many requests, the API filed a restraining order! 🚨 (Rate limit hit, chill for a sec)",
   "Yo mama so demanding, she exceeded her quota faster than a script kiddie with a new API key! ⚠️ (Try again in 60 seconds)",
   "Yo mama hit that rate limit so fast, even the API was like \x27Damn girl, pace yourself!\x27 🔥 (Quota exceeded, wait a minute)",
   "Yo mama\x27s API calls so excessive, Google Gemini ghosted her! 👻 (Rate limit reached, try again soon)"]

/-- The rate-limit / quota test on the error description in generate_joke. -/
def throttleMarker (e : String) : Bool :=
  containsSub e "429" || containsSub (pyLower e) "quota" || containsSub (pyLower e) "rate limit"

/-- The fallbacks dictionary of _get_fallback_joke. -/
def fallbacks : List (String × String) :=
  [("cybersecurity", "Yo mama so insecure, even CrowdStrike flagged her as a vulnerability."),
   ("tech", "Yo mama so slow, buffering gives up and goes home."),
   ("linux", "Yo mama so bloated, even apt-get couldn\x27t remove her dependencies."),
   ("general", "Yo mama so old, her password is literally \x27password\x27."),
   ("gaming", "Yo mama so laggy, ping timeout became her nickname."),
   ("programming", "Yo mama so buggy, Stack Overflow created a tag just for her."),
   ("radio", "Yo mama so noisy, she causes interference on all bands at once - 73!"),
   ("thegame", "Congratulations! You just lost The Game. And so did everyone reading this. Sorry not sorry. 🎮💀")]

/-- YoMamaGenerator._get_fallback_joke. -/
def get_fallback_joke (flavor : String) : String :=
  (lookupPairs fallbacks flavor).getD "Yo mama so outdated, even legacy systems moved on."

/-- The random draws consumed by one generate_joke call: an index for
random.choice over FLAVORS and an index for random.choice over the
rate-limit jokes. -/
structure JRand where
  flavorIdx : Nat
  rateIdx : Nat

/-- YoMamaGenerator.generate_joke. The remote call is the oracle
remote applied to the composed prompt; none means an exception escapes
to the caller (only possible from a KeyError in _build_prompt, which is
invoked outside the try block). -/
def generate_joke (remote : String → Except String String) (rnd : JRand)
    (flavor : Option String) (meanness nerdiness : Int) (target_name : Option String) :
    Option String :=
  match build_prompt (resolveFlavor flavor rnd.flavorIdx) (clampLevel meanness)
      (clampLevel nerdiness) target_name with
  | none => none
  | some p =>
    match remote p with
    | Except.ok text => some (pyStrip text)
    | Except.error e =>
      if throttleMarker e then
        some (rate_limit_jokes.getD (rnd.rateIdx % rate_limit_jokes.length) "")
      else
        some (get_fallback_joke (resolveFlavor flavor rnd.flavorIdx))

/-- YoMamaGenerator.generate_batch: count sequential generate_joke calls,
appending each result and skipping an iteration whose call raises
(modelled by the per-iteration Option). -/
def generate_batch (gen : Nat → Option String) (count : Nat) : List String :=
  (List.range count).filterMap gen

/-- The random draws consumed by one random_joke call. -/
structure RandR where
  flavorIdx : Nat
  meanR : Nat
  nerdR : Nat
  rateIdx : Nat

/-- The flavor chosen by random_joke via random.choice over FLAVORS. -/
def random_joke_flavor (r : RandR) : String := FLAVORS.getD (r.flavorIdx % FLAVORS.length) ""

/-- The meanness chosen by random_joke via random.randint(3, 7). -/
def random_joke_meanness (r : RandR) : Int := 3 + Int.ofNat (r.meanR % 5)

/-- The nerdiness chosen by random_joke via random.randint(3, 7). -/
def random_joke_nerdiness (r : RandR) : Int := 3 + Int.ofNat (r.nerdR % 5)

/-- YoMamaGenerator.random_joke: random flavor and moderate random levels,
then delegation to generate_joke. -/
def random_joke (remote : String → Except String String) (r : RandR) : Option String :=
  generate_joke remote ⟨r.flavorIdx, r.rateIdx⟩ (some (random_joke_flavor r))
    (random_joke_meanness r) (random_joke_nerdiness r) none

/-- Python truthiness of an optional string: present and non-empty. -/
def truthy : Option String → Bool
  | none => false
  | some s => s ≠ ""

/-- The pattern of yo_mama/secrets.py: if key in dict, bind its value and
return it when truthy, else keep looking. -/
def nonEmptyHit : Option String → Option String
  | none => none
  | some v => if v ≠ "" then some v else none

/-- The external credential sources seen by get_secret. getenv is
os.getenv; the other three fields are the dictionaries produced by
load_secrets_from_doppler (given its optional name filter),
load_secrets_from_aws (given the secret name) and load_secrets_from_vault
(given the secret path), as key lookups. Each loader returns an empty
dictionary when its backend is unreachable, unauthenticated or its
client library is missing, so those failure modes are the everywhere-none
lookup. -/
structure SecretsEnv where
  getenv : String → Option String
  doppler : Option String → String → Option String
  aws : String → String → Option String
  vault : String → String → Option String

/-- get_secret from yo_mama/secrets.py: Doppler (when DOPPLER_TOKEN is
truthy), then AWS Secrets Manager (when SECRETS_MANAGER=aws and a secret
name is given), then Vault (when SECRETS_MANAGER=vault and a path is
given), then the environment variable, then the caller default. -/
def get_secret (E : SecretsEnv) (key : String) (platform default aws_secret_name
    vault_secret_path dopplerPfx : Option String) : Option String :=
  let env_key := match platform with
    | some p => pyUpper p ++ "_" ++ pyUpper key
    | none => pyUpper key
  let dopplerHit : Option String :=
    if truthy (E.getenv "DOPPLER_TOKEN") then
      let viaPfx : Option String :=
        match dopplerPfx with
        | some pfx =>
          if pfx ≠ "" then nonEmptyHit (E.doppler (some pfx) (pyLower key)) else none
        | none => none
      match viaPfx with
      | some v => some v
      | none => nonEmptyHit (E.doppler none env_key)
    else none
  match dopplerHit with
  | some v => some v
  | none =>
    let sm := pyLower ((E.getenv "SECRETS_MANAGER").getD "none")
    let awsHit : Option String :=
      if sm = "aws" then
        match aws_secret_name with
        | some nm =>
          if nm ≠ "" then
            match nonEmptyHit (E.aws nm (pyLower key)) with
            | some v => some v
            | none => nonEmptyHit (E.aws nm (pyLower env_key))
          else none
        | none => none
      else none
    match awsHit with
    | some v => some v
    | none =>
      let vaultHit : Option String :=
        if sm = "vault" then
          match vault_secret_path with
          | some pth =>
            if pth ≠ "" then
              match nonEmptyHit (E.vault pth (pyLower key)) with
              | some v => some v
              | none => nonEmptyHit (E.vault pth (pyLower env_key))
            else none
          | none => none
        else none
      match vaultHit with
      | some v => some v
      | none =>
        match nonEmptyHit (E.getenv env_key) with
        | some v => some v
        | none => default

/-- A credential environment with only the local environment populated. -/
def envOnlyE : SecretsEnv :=
  ⟨fun k => if k = "GEMINI_API_KEY" then some "env-value" else none,
   fun _ _ => none, fun _ _ => none, fun _ _ => none⟩

/-- A credential environment with Doppler enabled and populated and the
local environment also populated. -/
def dopplerE : SecretsEnv :=
  ⟨fun k => if k = "DOPPLER_TOKEN" then some "tok"
    else if k = "GEMINI_API_KEY" then some "env-value" else none,
   fun _ k => if k = "GEMINI_API_KEY" then some "doppler-value" else none,
   fun _ _ => none, fun _ _ => none⟩

/-- A credential environment with every source empty. -/
def emptyE : SecretsEnv :=
  ⟨fun _ => none, fun _ _ => none, fun _ _ => none, fun _ _ => none⟩

/-! Helper lemmas shared by the claim theorems. -/

theorem clampLevel_lb (m : Int) : 1 ≤ clampLevel m := le_max_left 1 _

theorem clampLevel_ub (m : Int) : clampLevel m ≤ 10 :=
  max_le (by norm_num) (min_le_left 10 m)

theorem clampLevel_low {m : Int} (h : m ≤ 0) : clampLevel m = 1 := by
  unfold clampLevel
  rw [min_eq_right (by omega : m ≤ 10)]
  exact max_eq_left (by omega)

theorem clampLevel_high {m : Int} (h : 11 ≤ m) : clampLevel m = 10 := by
  unfold clampLevel
  rw [min_eq_left (by omega : (10 : Int) ≤ m)]
  exact max_eq_right (by omega)

theorem meanness_guide_isSome {m : Int} (h1 : 1 ≤ m) (h2 : m ≤ 10) :
    (meanness_guide m).isSome = true := by
  interval_cases m <;> rfl

theorem nerdiness_guide_isSome {n : Int} (h1 : 1 ≤ n) (h2 : n ≤ 10) :
    (nerdiness_guide n).isSome = true := by
  interval_cases n <;> rfl

theorem build_prompt_isSome (f : String) (t : Option String) {m n : Int}
    (h1 : 1 ≤ m) (h2 : m ≤ 10) (h3 : 1 ≤ n) (h4 : n ≤ 10) :
    (build_prompt f m n t).isSome = true := by
  obtain ⟨mg, hmg⟩ := Option.isSome_iff_exists.mp (meanness_guide_isSome h1 h2)
  obtain ⟨ng, hng⟩ := Option.isSome_iff_exists.mp (nerdiness_guide_isSome h3 h4)
  simp [build_prompt, hmg, hng]

theorem compose_isSome (flavor : Option String) (m n : Int) (t : Option String) (r : Nat) :
    (compose flavor m n t r).isSome = true :=
  build_prompt_isSome _ t (clampLevel_lb m) (clampLevel_ub m) (clampLevel_lb n) (clampLevel_ub n)

theorem generate_joke_total (remote : String → Except String String) (rnd : JRand)
    (flavor : Option String) (m n : Int) (t : Option String) :
    (generate_joke remote rnd flavor m n t).isSome = true := by
  obtain ⟨p, hp⟩ := Option.isSome_iff_exists.mp
    (build_prompt_isSome (resolveFlavor flavor rnd.flavorIdx) t
      (clampLevel_lb m) (clampLevel_ub m) (clampLevel_lb n) (clampLevel_ub n))
  simp only [generate_joke, hp]
  cases remote p with
  | ok s => rfl
  | error e =>
    dsimp only
    split <;> rfl

theorem generate_joke_throttle_eq {e : String} (rnd : JRand) (flavor : Option String)
    (m n : Int) (t : Option String) (h : throttleMarker e = true) :
    generate_joke (fun _ => Except.error e) rnd flavor m n t
      = some (rate_limit_jokes.getD (rnd.rateIdx % rate_limit_jokes.length) "") := by
  obtain ⟨p, hp⟩ := Option.isSome_iff_exists.mp
    (build_prompt_isSome (resolveFlavor flavor rnd.flavorIdx) t
      (clampLevel_lb m) (clampLevel_ub m) (clampLevel_lb n) (clampLevel_ub n))
  simp [generate_joke, hp, h]

theorem generate_joke_error_eq {e : String} (rnd : JRand) (flavor : Option String)
    (m n : Int) (t : Option String) (h : throttleMarker e = false) :
    generate_joke (fun _ => Except.error e) rnd flavor m n t
      = some (get_fallback_joke (resolveFlavor flavor rnd.flavorIdx)) := by
  obtain ⟨p, hp⟩ := Option.isSome_iff_exists.mp
    (build_prompt_isSome (resolveFlavor flavor rnd.flavorIdx) t
      (clampLevel_lb m) (clampLevel_ub m) (clampLevel_lb n) (clampLevel_ub n))
  simp [generate_joke, hp, h]

theorem rate_joke_mem (i : Nat) :
    rate_limit_jokes.getD (i % rate_limit_jokes.length) "" ∈ rate_limit_jokes := by
  have h : i % rate_limit_jokes.length < rate_limit_jokes.length :=
    Nat.mod_lt _ (by decide)
  rw [List.getD_eq_getElem _ _ h]
  exact List.getElem_mem h

theorem flavors_getD_mem (i : Nat) : FLAVORS.getD (i % FLAVORS.length) "" ∈ FLAVORS := by
  have h : i % FLAVORS.length < FLAVORS.length := Nat.mod_lt _ (by decide)
  rw [List.getD_eq_getElem _ _ h]
  exact List.getElem_mem h

theorem resolveFlavor_of_mem (f : String) (r : Nat) (h : pyLower f ∈ FLAVORS) :
    resolveFlavor (some f) r = pyLower f := by
  simp only [resolveFlavor]
  exact if_neg (fun hc => hc.2 h)

theorem lookupPairs_mem_values {l : List (String × String)} {k v : String}
    (h : lookupPairs l k = some v) : v ∈ l.map Prod.snd := by
  induction l with
  | nil => simp [lookupPairs] at h
  | cons p rest ih =>
    obtain ⟨a, b⟩ := p
    rw [lookupPairs] at h
    split at h
    · simp only [Option.some.injEq] at h
      simp [h]
    · simp [ih h]

theorem get_fallback_ne (f : String) : get_fallback_joke f ≠ "" := by
  unfold get_fallback_joke
  cases hl : lookupPairs fallbacks f with
  | none => decide
  | some v =>
    have hv := lookupPairs_mem_values hl
    simp only [fallbacks, List.map] at hv
    rw [Option.getD_some]
    fin_cases hv <;> decide

theorem filterMap_length_all_some {g : Nat → Option String}
    (h : ∀ a, (g a).isSome = true) :
    ∀ l : List Nat, (l.filterMap g).length = l.length := by
  intro l
  induction l with
  | nil => rfl
  | cons a rest ih =>
    obtain ⟨b, hb⟩ := Option.isSome_iff_exists.mp (h a)
    simp [List.filterMap_cons, hb, ih]

theorem filterMap_const_some {g : Nat → Option String} {c : String}
    (h : ∀ a, g a = some c) :
    ∀ l : List Nat, l.filterMap g = List.replicate l.length c := by
  intro l
  induction l with
  | nil => rfl
  | cons a rest ih =>
    simp [List.filterMap_cons, h a, ih, List.replicate_succ]

/-! The claim theorems. -/

/-- C1: for every remote-call failure whose textual description contains
"429", or contains "quota" or "rate limit" in any letter case,
generate_joke returns one of the fixed set of six throttling-joke
strings (chosen among them) and never propagates the exception to the
caller. -/
theorem generate_throttling (e : String) (rnd : JRand) (flavor : Option String)
    (m n : Int) (t : Option String)
    (h : containsSub e "429" = true ∨ containsSub (pyLower e) "quota" = true
      ∨ containsSub (pyLower e) "rate limit" = true) :
    ∃ j, generate_joke (fun _ => Except.error e) rnd flavor m n t = some j
      ∧ j ∈ rate_limit_jokes := by
  have hm : throttleMarker e = true := by
    unfold throttleMarker
    rcases h with h | h | h <;> simp [h]
  exact ⟨_, generate_joke_throttle_eq rnd flavor m n t hm, rate_joke_mem rnd.rateIdx⟩

/-- Witness for C1 at the concrete error description
"HTTP 429 RESOURCE_EXHAUSTED". -/
theorem generate_throttling_witness :
    ∃ j, generate_joke (fun _ => Except.error "HTTP 429 RESOURCE_EXHAUSTED")
        ⟨0, 0⟩ none 5 5 none = some j ∧ j ∈ rate_limit_jokes :=
  generate_throttling "HTTP 429 RESOURCE_EXHAUSTED" ⟨0, 0⟩ none 5 5 none (Or.inl (by decide))

/-- C2: for every remote-call failure whose description matches none of
the throttling markers, generate_joke returns the per-theme fallback
joke when the resolved theme has an entry in the fallback map, otherwise
the one generic fallback string; the returned string is always non-empty
and the exception is never propagated. -/
theorem generate_fallback (e : String) (rnd : JRand) (flavor : Option String)
    (m n : Int) (t : Option String) (h : throttleMarker e = false) :
    generate_joke (fun _ => Except.error e) rnd flavor m n t
        = some (get_fallback_joke (resolveFlavor flavor rnd.flavorIdx))
    ∧ (∀ f v, lookupPairs fallbacks f = some v → get_fallback_joke f = v)
    ∧ (∀ f, lookupPairs fallbacks f = none →
        get_fallback_joke f = "Yo mama so outdated, even legacy systems moved on.")
    ∧ get_fallback_joke (resolveFlavor flavor rnd.flavorIdx) ≠ "" := by
  refine ⟨generate_joke_error_eq rnd flavor m n t h, ?_, ?_, get_fallback_ne _⟩
  · intro f v hv
    simp [get_fallback_joke, hv]
  · intro f hn
    simp [get_fallback_joke, hn]

/-- Witness for C2 at the unrelated error description "connection reset"
and the recognized theme "tech". -/
theorem generate_fallback_witness :
    generate_joke (fun _ => Except.error "connection reset") ⟨0, 0⟩ (some "tech") 5 5 none
      = some (get_fallback_joke "tech")
    ∧ get_fallback_joke "tech" ≠ "" := by
  have h := generate_fallback "connection reset" ⟨0, 0⟩ (some "tech") 5 5 none (by decide)
  have hf : resolveFlavor (some "tech") (0 : Nat) = "tech" := by decide
  have h1 := h.1
  have h4 := h.2.2.2
  rw [show (⟨0, 0⟩ : JRand).flavorIdx = (0 : Nat) from rfl, hf] at h1 h4
  exact ⟨h1, h4⟩

/-- C3: for every integer meanness and nerdiness input, including values
at most 0 and at least 11, the clamping max(1, min(10, x)) puts each
value into the range 1 to 10 (below 1 becomes 1, above 10 becomes 10)
before the guidance-table lookup, so the lookup of the meanness and
nerdiness phrase tables never raises, and neither compose nor
generate_joke surfaces an error for out-of-range input. -/
theorem clamp_lookup_safe (m n : Int) (flavor t : Option String)
    (remote : String → Except String String) (rnd : JRand) :
    1 ≤ clampLevel m ∧ clampLevel m ≤ 10
    ∧ (m ≤ 0 → clampLevel m = 1) ∧ (11 ≤ m → clampLevel m = 10)
    ∧ (meanness_guide (clampLevel m)).isSome = true
    ∧ (nerdiness_guide (clampLevel n)).isSome = true
    ∧ (compose flavor m n t rnd.flavorIdx).isSome = true
    ∧ (generate_joke remote rnd flavor m n t).isSome = true :=
  ⟨clampLevel_lb m, clampLevel_ub m, fun h => clampLevel_low h, fun h => clampLevel_high h,
   meanness_guide_isSome (clampLevel_lb m) (clampLevel_ub m),
   nerdiness_guide_isSome (clampLevel_lb n) (clampLevel_ub n),
   compose_isSome flavor m n t rnd.flavorIdx,
   generate_joke_total remote rnd flavor m n t⟩

/-- Witness for C3 at the out-of-range inputs meanness 0 and
nerdiness 11. -/
theorem clamp_lookup_safe_witness :
    clampLevel 0 = 1 ∧ clampLevel 11 = 10
    ∧ (generate_joke (fun _ => Except.error "boom") ⟨0, 0⟩ none 0 11 none).isSome = true :=
  ⟨(clamp_lookup_safe 0 11 none none (fun _ => Except.error "boom") ⟨0, 0⟩).2.2.1 (by decide),
   (clamp_lookup_safe 11 0 none none (fun _ => Except.error "boom") ⟨0, 0⟩).2.2.2.1 (by decide),
   (clamp_lookup_safe 0 11 none none (fun _ => Except.error "boom") ⟨0, 0⟩).2.2.2.2.2.2.2⟩

/-- C4 counterexample: the empty theme string is Python-falsy, so the
unrecognized-theme branch is skipped; the resolved theme is the empty
string itself, which is not a member of FLAVORS, and the prompt is built
with the generic context instead of a randomly substituted theme. -/
theorem theme_empty_passthrough_ce :
    resolveFlavor (some "") 0 = ""
    ∧ ¬ ("" ∈ FLAVORS)
    ∧ containsSub ((compose (some "") 5 5 none 0).getD "")
        "THEME/FLAVOR:  - Focus on general technology" = true := by
  refine ⟨by decide, by decide, by decide⟩

/-- C4 as amended: for every non-empty theme string that is not a member
of the closed theme set after lowercasing, compose discards it and
substitutes the randomly chosen theme, which is always a member of the
closed set; the empty theme string is instead passed through unchanged. -/
theorem theme_subst_amended :
    (∀ (s : String) (r : Nat), s ≠ "" → pyLower s ∉ FLAVORS →
      resolveFlavor (some s) r = FLAVORS.getD (r % FLAVORS.length) ""
      ∧ resolveFlavor (some s) r ∈ FLAVORS)
    ∧ (∀ r : Nat, resolveFlavor (some "") r = "") := by
  constructor
  · intro s r h1 h2
    have he : resolveFlavor (some s) r = FLAVORS.getD (r % FLAVORS.length) "" := by
      simp only [resolveFlavor]
      exact if_pos ⟨h1, h2⟩
    exact ⟨he, he ▸ flavors_getD_mem r⟩
  · intro r
    simp only [resolveFlavor]
    rw [if_neg (by simp)]
    decide

/-- Witness for the amended C4 at the unrecognized theme "jazz". -/
theorem theme_subst_amended_witness :
    resolveFlavor (some "jazz") 0 = "classic" ∧ resolveFlavor (some "jazz") 0 ∈ FLAVORS := by
  have h := theme_subst_amended.1 "jazz" 0 (by decide) (by decide)
  exact ⟨h.1.trans (by decide), h.2⟩

/-- C5 counterexample: two compose calls with identical theme, meanness,
nerdiness and target inputs (theme absent) but different random draws
produce different request text, so compose is not deterministic over
absent themes. -/
theorem compose_rng_ce : compose none 5 5 none 0 ≠ compose none 5 5 none 1 := by decide

/-- C5 as amended: compose is deterministic for every theme input whose
lowercasing is a member of the closed theme set, where no random
substitution happens: identical (theme, meanness, nerdiness, target)
inputs produce identical request text regardless of the random draw; for
absent or unrecognized themes the text additionally depends on the
random draw. -/
theorem compose_det (s : String) (m n : Int) (t : Option String) (r1 r2 : Nat)
    (h : pyLower s ∈ FLAVORS) :
    compose (some s) m n t r1 = compose (some s) m n t r2 := by
  unfold compose
  rw [resolveFlavor_of_mem s r1 h, resolveFlavor_of_mem s r2 h]

/-- Witness for the amended C5 at the theme "tech" and two different
random draws. -/
theorem compose_det_witness :
    compose (some "tech") 5 5 none 0 = compose (some "tech") 5 5 none 1 :=
  compose_det "tech" 5 5 none 0 1 (by decide)

/-- C6: generate_batch invokes generate_joke once per index below count,
in order, and never raises past its boundary: the result has at most
count elements in general; when the remote fails every call the result
still has exactly count elements, and with count 5, a recognized theme
and a non-throttling failure it is exactly 5 copies of the per-theme
fallback joke, hence never empty. -/
theorem batch_contract :
    (∀ (gen : Nat → Option String) (count : Nat),
      (generate_batch gen count).length ≤ count)
    ∧ (∀ (errs : Nat → String) (rnds : Nat → JRand) (flavor : Option String)
        (m n : Int) (t : Option String),
        (generate_batch
          (fun i => generate_joke (fun _ => Except.error (errs i)) (rnds i) flavor m n t)
          5).length = 5)
    ∧ (∀ (e : String) (rnds : Nat → JRand) (f : String) (m n : Int) (t : Option String),
        pyLower f ∈ FLAVORS → throttleMarker e = false →
        generate_batch
          (fun i => generate_joke (fun _ => Except.error e) (rnds i) (some f) m n t) 5
          = List.replicate 5 (get_fallback_joke (pyLower f))) := by
  refine ⟨?_, ?_, ?_⟩
  · intro gen count
    calc (generate_batch gen count).length
        ≤ (List.range count).length := List.length_filterMap_le gen (List.range count)
      _ = count := List.length_range count
  · intro errs rnds flavor m n t
    unfold generate_batch
    rw [filterMap_length_all_some
      (fun i => generate_joke_total (fun _ => Except.error (errs i)) (rnds i) flavor m n t),
      List.length_range]
  · intro e rnds f m n t hf he
    unfold generate_batch
    rw [filterMap_const_some (fun i => ?_), List.length_range]
    rw [generate_joke_error_eq (rnds i) (some f) m n t he, resolveFlavor_of_mem f _ hf]

/-- Witness for C6: five calls that all fail with an unrelated error on
the theme "tech" yield exactly five copies of the tech fallback joke. -/
theorem batch_contract_witness :
    generate_batch
      (fun i => generate_joke (fun _ => Except.error "boom") ⟨i, i⟩ (some "tech") 5 5 none) 5
      = List.replicate 5 (get_fallback_joke "tech")
    ∧ (generate_batch
        (fun i => generate_joke (fun _ => Except.error "boom") ⟨i, i⟩ (some "tech") 5 5 none)
        5).length = 5 := by
  have h3 := batch_contract.2.2 "boom" (fun i => ⟨i, i⟩) "tech" 5 5 none (by decide) (by decide)
  have hl : pyLower "tech" = "tech" := by decide
  rw [hl] at h3
  exact ⟨h3, batch_contract.2.1 (fun _ => "boom") (fun i => ⟨i, i⟩) (some "tech") 5 5 none⟩

/-- C7: credential resolution follows the fixed source ranking and picks
the first non-empty value: with the Doppler source disabled and the
local environment populated, get_secret returns the environment value;
with the Doppler source enabled and populated it wins regardless of the
environment; and when every source yields no value (an unreachable
backend or a missing client library produces an empty dictionary)
resolution falls through without raising and ends at the caller-supplied
default. -/
theorem credential_priority :
    (∀ (E : SecretsEnv) (v : String) (d : Option String),
      truthy (E.getenv "DOPPLER_TOKEN") = false →
      E.getenv "GEMINI_API_KEY" = some v → v ≠ "" →
      get_secret E "GEMINI_API_KEY" none d none none none = some v)
    ∧ (∀ (E : SecretsEnv) (w : String) (d : Option String),
      truthy (E.getenv "DOPPLER_TOKEN") = true →
      E.doppler none "GEMINI_API_KEY" = some w → w ≠ "" →
      get_secret E "GEMINI_API_KEY" none d none none none = some w)
    ∧ (∀ (E : SecretsEnv) (d : Option String),
      E.doppler none "GEMINI_API_KEY" = none →
      E.getenv "GEMINI_API_KEY" = none →
      get_secret E "GEMINI_API_KEY" none d none none none = d) := by
  have hup : pyUpper "GEMINI_API_KEY" = "GEMINI_API_KEY" := by decide
  refine ⟨?_, ?_, ?_⟩
  · intro E v d htok henv hv
    simp [get_secret, hup, htok, henv, nonEmptyHit, hv]
  · intro E w d htok hdop hw
    simp [get_secret, hup, htok, hdop, nonEmptyHit, hw]
  · intro E d hdop henv
    cases htok : truthy (E.getenv "DOPPLER_TOKEN") <;>
      simp [get_secret, hup, htok, hdop, henv, nonEmptyHit]

/-- Witness for C7 on three concrete credential environments: local
environment only, Doppler plus environment, and all sources empty. -/
theorem credential_priority_witness :
    get_secret envOnlyE "GEMINI_API_KEY" none none none none none = some "env-value"
    ∧ get_secret dopplerE "GEMINI_API_KEY" none none none none none = some "doppler-value"
    ∧ get_secret emptyE "GEMINI_API_KEY" none (some "default-value") none none none
        = some "default-value" :=
  ⟨credential_priority.1 envOnlyE "env-value" none (by decide) (by decide) (by decide),
   credential_priority.2.1 dopplerE "doppler-value" none (by decide) (by decide) (by decide),
   credential_priority.2.2 emptyE (some "default-value") rfl rfl⟩

/-- C8: random_joke always delegates to generate_joke with meanness and
nerdiness each drawn from 3 to 7 inclusive and with a theme drawn from
the full theme set returned by list_flavors. -/
theorem random_joke_ranges (r : RandR) (remote : String → Except String String) :
    random_joke_flavor r ∈ list_flavors
    ∧ 3 ≤ random_joke_meanness r ∧ random_joke_meanness r ≤ 7
    ∧ 3 ≤ random_joke_nerdiness r ∧ random_joke_nerdiness r ≤ 7
    ∧ random_joke remote r
        = generate_joke remote ⟨r.flavorIdx, r.rateIdx⟩ (some (random_joke_flavor r))
            (random_joke_meanness r) (random_joke_nerdiness r) none := by
  have hm : r.meanR % 5 < 5 := Nat.mod_lt _ (by decide)
  have hn : r.nerdR % 5 < 5 := Nat.mod_lt _ (by decide)
  refine ⟨flavors_getD_mem r.flavorIdx, ?_, ?_, ?_, ?_, rfl⟩ <;>
    simp only [random_joke_meanness, random_joke_nerdiness, Int.ofNat_eq_natCast] <;> omega

/-- C9: composing with theme "tech", meanness 5, nerdiness 5 and no
target produces request text containing the literal substring
"Yo mama so", containing the tech theme-context keywords, and containing
no literal placeholder token (no brace characters survive in the text). -/
theorem tech_prompt_contents :
    (compose (some "tech") 5 5 none 0).isSome = true
    ∧ containsSub ((compose (some "tech") 5 5 none 0).getD "") "Yo mama so" = true
    ∧ containsSub ((compose (some "tech") 5 5 none 0).getD "")
        "technology, computers, software, hardware, operating systems, IT support, tech companies"
        = true
    ∧ containsSub ((compose (some "tech") 5 5 none 0).getD "") "\x7b" = false
    ∧ containsSub ((compose (some "tech") 5 5 none 0).getD "") "\x7d" = false := by
  refine ⟨by decide, by decide, by decide, by decide, by decide⟩

/-- C10: theme membership is tested case-insensitively: for every theme
string whose lowercasing is a member of the closed theme set,
generate_joke accepts it and uses the lowercased tag for prompt
construction and for fallback selection, rather than substituting a
random theme. -/
theorem case_insensitive_theme (s : String) (r : Nat) (rnd : JRand) (e : String)
    (m n : Int) (t : Option String)
    (h : pyLower s ∈ FLAVORS) (he : throttleMarker e = false) :
    resolveFlavor (some s) r = pyLower s
    ∧ compose (some s) m n t r = build_prompt (pyLower s) (clampLevel m) (clampLevel n) t
    ∧ generate_joke (fun _ => Except.error e) rnd (some s) m n t
        = some (get_fallback_joke (pyLower s)) := by
  refine ⟨resolveFlavor_of_mem s r h, ?_, ?_⟩
  · unfold compose
    rw [resolveFlavor_of_mem s r h]
  · rw [generate_joke_error_eq rnd (some s) m n t he, resolveFlavor_of_mem s _ h]

/-- Witness for C10 at the upper-case theme "TECH" and the mixed-case
theme "Linux". -/
theorem case_insensitive_theme_witness :
    resolveFlavor (some "TECH") 0 = "tech"
    ∧ generate_joke (fun _ => Except.error "boom") ⟨0, 0⟩ (some "TECH") 5 5 none
        = some (get_fallback_joke "tech")
    ∧ resolveFlavor (some "Linux") 0 = "linux" := by
  have h1 := case_insensitive_theme "TECH" 0 ⟨0, 0⟩ "boom" 5 5 none (by decide) (by decide)
  have h2 := case_insensitive_theme "Linux" 0 ⟨0, 0⟩ "boom" 5 5 none (by decide) (by decide)
  have hl1 : pyLower "TECH" = "tech" := by decide
  have hl2 : pyLower "Linux" = "linux" := by decide
  exact ⟨h1.1.trans hl1, hl1 ▸ h1.2.2, h2.1.trans hl2⟩
